import Mathlib

/-!
Shallow embedding of `src/calculate_calories.py`.

The script holds a hardcoded list of (label, calorie) pairs, sums the
calorie values in a left-to-right loop, prints an itemized fixed-width
report, rounds the total with Python's `round` (nearest integer, ties to
even), and compares the total against a hardcoded backend reference value,
printing the absolute difference.

All numeric literals in the source are decimal literals with at most two
fractional digits; they are embedded exactly as rationals (`ℚ`).  Python's
format specifier `:<45` left-justifies by padding on the right to a minimum
width of 45 characters (it never truncates); `:>8.2f` renders with two
decimal digits and right-justifies to a minimum width of 8.  Widths count
code points, as Lean's `String.length` does.
-/

/-- The hardcoded list `nutrition_logs` from the source: 22 entries of
(food name, calories), in source order, including the two identical
`Oatly Chocolate Oatmilk (updated)` pairs. -/
def nutrition_logs : List (String × ℚ) :=
  [ ("95% lean minced beef - HKMEATLO", 154.72),
    ("NOW Foods, Zinc Picolinat", 0.00),
    ("Chicken Breast Fillet", 165.00),
    ("Natrol, Melatonin, Time Release, 3 mg", 0.00),
    ("Broccoli", 57.57),
    ("Liquid Egg white", 117.50),
    ("white rice (uncooked)", 337.50),
    ("Sport research Omegas 3", 60.00),
    ("Redon1 Mre", 530.00),
    ("Canola oil", 53.14),
    ("Excellence Mint Intense Chocolate", 107.00),
    ("Mark and Spencer\x27s protein bagel", 237.06),
    ("Life Extension, Two-Per-Day Multivitamin", 0.00),
    ("California Gold Nutrition, CoQ10 with Bioperine", 0.00),
    ("NOW Foods, NAC", 0.00),
    ("淮山麵", 351.51),
    ("Life Extension, Super K", 0.00),
    ("Fried Egg", 90.00),
    ("Alpen no added sugar (v3)", 276.75),
    ("Oatly Chocolate Oatmilk (updated)", 151.11),
    ("Oatly Chocolate Oatmilk (updated)", 151.11),
    ("Life Extension, Two-Per-Day Multivitamin", 0.00) ]

/-- The accumulation loop of the source: `total_calories = 0` followed by
`for food_name, calories in nutrition_logs: total_calories += calories`,
i.e. a left-to-right fold of addition starting from 0. -/
def compute_total (entries : List (String × ℚ)) : ℚ :=
  entries.foldl (fun acc e => acc + e.2) 0

/-- The source's `total_calories` after the loop. -/
def total_calories : ℚ := compute_total nutrition_logs

/-- The source's hardcoded backend reference value. -/
def backend_value : ℚ := 2839.97

/-- Python's built-in `round` with no digit argument: nearest integer,
ties resolved to the even neighbour (banker's rounding). -/
def round_total (q : ℚ) : ℤ :=
  if q - ⌊q⌋ < 1/2 then ⌊q⌋
  else if 1/2 < q - ⌊q⌋ then ⌊q⌋ + 1
  else if ⌊q⌋ % 2 = 0 then ⌊q⌋ else ⌊q⌋ + 1

/-- The source's `ui_display = round(total_calories)`. -/
def ui_display : ℤ := round_total total_calories

/-- Python `str.ljust` / format `:<w`: pad on the right with spaces to a
minimum width `w`; a longer string is returned unchanged (no truncation). -/
def ljust (s : String) (w : Nat) : String :=
  s ++ String.mk (List.replicate (w - s.length) ' ')

/-- Python format `:>w`: pad on the left with spaces to a minimum width
`w`; a longer string is returned unchanged. -/
def rjust (s : String) (w : Nat) : String :=
  String.mk (List.replicate (w - s.length) ' ') ++ s

/-- Two-digit rendering of a number of cents below 100. -/
def frac2 (n : Nat) : String :=
  if n < 10 then "0" ++ toString n else toString n

/-- Python format `:.2f`: fixed-point rendering with two decimal digits,
rounding the value to the nearest cent (ties to even, as Python's float
formatting does on the underlying value; every value the program formats
is an exact multiple of 1/100, so no rounding actually occurs). -/
def toFixed2 (q : ℚ) : String :=
  let c := round_total (q * 100)
  (if q < 0 then "-" else "") ++ toString (c.natAbs / 100) ++ "." ++ frac2 (c.natAbs % 100)

/-- One line of the itemized loop:
`print(f"{food_name:<45} {calories:>8.2f} cal")`. -/
def entry_line (e : String × ℚ) : String :=
  ljust e.1 45 ++ " " ++ rjust (toFixed2 e.2) 8 ++ " cal"

/-- The separator rule `"-" * 50`. -/
def sep50 : String := String.mk (List.replicate 50 '-')

/-- The totals line `print(f"{'總計':<45} {total_calories:>8.2f} cal")`. -/
def totals_line (total : ℚ) : String :=
  ljust "總計" 45 ++ " " ++ rjust (toFixed2 total) 8 ++ " cal"

/-- The rounded-total line `print(f"四捨五入後: {round(total_calories)} cal")`. -/
def rounded_line (rounded_total : ℤ) : String :=
  "四捨五入後: " ++ toString rounded_total ++ " cal"

/-- The report portion of the output: one line per entry, the separator
rule, the totals line, and the rounded-total line. -/
def render_report (entries : List (String × ℚ)) (total : ℚ) (rounded_total : ℤ) : String :=
  String.intercalate "\n"
    (entries.map entry_line ++ [sep50, totals_line total, rounded_line rounded_total])

/-- The comparison step of the source: it prints the backend reference
value with `:.2f` and then `print(f"差異: {abs(total_calories - backend_value):.2f} cal")`. -/
def compare_output (total reference : ℚ) : List String :=
  [ "後端 API 回傳: " ++ toFixed2 reference ++ " cal",
    "差異: " ++ toFixed2 (abs (total - reference)) ++ " cal" ]

/-- Every line the script prints, in order: the header, the separator, one
line per entry, the separator, the totals line, the rounded-total line, the
blank line produced by the `\n` opening the backend line, the two
comparison lines, and the UI display line. -/
def program_lines (entries : List (String × ℚ)) (reference : ℚ) : List String :=
  [ "卡路里明細計算:", sep50 ] ++
  entries.map entry_line ++
  [ sep50, totals_line (compute_total entries),
    rounded_line (round_total (compute_total entries)), "" ] ++
  compare_output (compute_total entries) reference ++
  [ "UI 顯示 (四捨五入): " ++ toString (round_total (compute_total entries)) ++ " cal" ]

/-- The whole program as a function of the entry list and the reference
value: every printed line joined by newlines (each `print` appends one). -/
def run_program (entries : List (String × ℚ)) (reference : ℚ) : String :=
  String.intercalate "\n" (program_lines entries reference) ++ "\n"

/-- The text the program actually writes on a run. -/
def main_output : String := run_program nutrition_logs backend_value

/-- The script consumes no command-line arguments, environment variables,
or other external input (it imports only `math`, which it never uses), so
one execution is a function of no inputs. -/
def program_run : Unit → String := fun _ => main_output

/-! ## Helper lemmas -/

theorem foldl_add_eq (l : List (String × ℚ)) (a : ℚ) :
    l.foldl (fun acc e => acc + e.2) a = a + (l.map Prod.snd).sum := by
  induction l generalizing a with
  | nil => simp
  | cons e t ih => simp [ih, add_assoc]

theorem compute_total_eq_sum (l : List (String × ℚ)) :
    compute_total l = (l.map Prod.snd).sum := by
  simpa using foldl_add_eq l 0

theorem ljust_length (s : String) (w : Nat) (h : s.length ≤ w) :
    (ljust s w).length = w := by
  simp [ljust, String.length_append, String.length_mk, List.length_replicate]
  omega

theorem round_near (q : ℚ) (n : ℤ) (h : abs (q - n) < 1/2) : round_total q = n := by
  obtain ⟨h1, h2⟩ := abs_lt.mp h
  by_cases hq : (n : ℚ) ≤ q
  · have hf : ⌊q⌋ = n := by
      rw [Int.floor_eq_iff]
      constructor
      · exact hq
      · linarith
    unfold round_total
    rw [hf, if_pos (by linarith)]
  · have hf : ⌊q⌋ = n - 1 := by
      rw [Int.floor_eq_iff]
      push_cast
      constructor
      · linarith
      · linarith
    unfold round_total
    rw [hf]
    rw [if_neg (by push_cast; linarith), if_pos (by push_cast; linarith)]
    omega

theorem round_half (n : ℤ) :
    round_total ((n : ℚ) + 1/2) = if n % 2 = 0 then n else n + 1 := by
  have hf : ⌊(n : ℚ) + 1/2⌋ = n := by
    rw [Int.floor_int_add]
    norm_num
  have hr : (n : ℚ) + 1/2 - ⌊(n : ℚ) + 1/2⌋ = 1/2 := by
    rw [hf]
    ring
  unfold round_total
  rw [hr, hf, if_neg (by norm_num), if_neg (by norm_num)]

theorem round_total_intCast (n : ℤ) : round_total ((n : ℤ) : ℚ) = n := by
  refine round_near _ n ?_
  simp

theorem toFixed2_eval (q : ℚ) (n : ℕ) (h : q = (n : ℚ)/100) (s : String)
    (hs : toString (n / 100) ++ "." ++ frac2 (n % 100) = s) : toFixed2 q = s := by
  have h1 : q * 100 = ((n : ℤ) : ℚ) := by rw [h]; push_cast; ring
  have h0 : ¬ (q < 0) := by rw [h]; push_neg; positivity
  simp only [toFixed2, h1, round_total_intCast, if_neg h0]
  rw [← hs]
  simp

theorem tf_15472 : toFixed2 154.72 = "154.72" :=
  toFixed2_eval 154.72 15472 (by norm_num) "154.72" (by decide)

theorem tf_0 : toFixed2 0.00 = "0.00" :=
  toFixed2_eval 0.00 0 (by norm_num) "0.00" (by decide)

theorem tf_16500 : toFixed2 165.00 = "165.00" :=
  toFixed2_eval 165.00 16500 (by norm_num) "165.00" (by decide)

theorem tf_5757 : toFixed2 57.57 = "57.57" :=
  toFixed2_eval 57.57 5757 (by norm_num) "57.57" (by decide)

theorem tf_11750 : toFixed2 117.50 = "117.50" :=
  toFixed2_eval 117.50 11750 (by norm_num) "117.50" (by decide)

theorem tf_33750 : toFixed2 337.50 = "337.50" :=
  toFixed2_eval 337.50 33750 (by norm_num) "337.50" (by decide)

theorem tf_6000 : toFixed2 60.00 = "60.00" :=
  toFixed2_eval 60.00 6000 (by norm_num) "60.00" (by decide)

theorem tf_53000 : toFixed2 530.00 = "530.00" :=
  toFixed2_eval 530.00 53000 (by norm_num) "530.00" (by decide)

theorem tf_5314 : toFixed2 53.14 = "53.14" :=
  toFixed2_eval 53.14 5314 (by norm_num) "53.14" (by decide)

theorem tf_10700 : toFixed2 107.00 = "107.00" :=
  toFixed2_eval 107.00 10700 (by norm_num) "107.00" (by decide)

theorem tf_23706 : toFixed2 237.06 = "237.06" :=
  toFixed2_eval 237.06 23706 (by norm_num) "237.06" (by decide)

theorem tf_35151 : toFixed2 351.51 = "351.51" :=
  toFixed2_eval 351.51 35151 (by norm_num) "351.51" (by decide)

theorem tf_9000 : toFixed2 90.00 = "90.00" :=
  toFixed2_eval 90.00 9000 (by norm_num) "90.00" (by decide)

theorem tf_27675 : toFixed2 276.75 = "276.75" :=
  toFixed2_eval 276.75 27675 (by norm_num) "276.75" (by decide)

theorem tf_15111 : toFixed2 151.11 = "151.11" :=
  toFixed2_eval 151.11 15111 (by norm_num) "151.11" (by decide)

theorem tf_283997 : toFixed2 2839.97 = "2839.97" :=
  toFixed2_eval 2839.97 283997 (by norm_num) "2839.97" (by decide)

theorem tf_zero : toFixed2 (0 : ℚ) = "0.00" :=
  toFixed2_eval 0 0 (by norm_num) "0.00" (by decide)

theorem total_eq : compute_total nutrition_logs = 2839.97 := by
  norm_num [compute_total, nutrition_logs]

theorem diff_zero : abs (compute_total nutrition_logs - backend_value) = 0 := by
  unfold backend_value
  rw [total_eq]
  norm_num

theorem roundtot_eq : round_total (compute_total nutrition_logs) = 2840 := by
  rw [total_eq]
  refine round_near _ 2840 ?_
  rw [abs_lt]
  push_cast
  norm_num

theorem compare_eval : compare_output (compute_total nutrition_logs) backend_value
    = [ "後端 API 回傳: 2839.97 cal", "差異: 0.00 cal" ] := by
  unfold compare_output
  rw [diff_zero, tf_zero]
  unfold backend_value
  rw [tf_283997]
  decide

theorem entry_lines_eval : nutrition_logs.map entry_line = [ "95% lean minced beef - HKMEATLO                 154.72 cal",
      "NOW Foods, Zinc Picolinat                         0.00 cal",
      "Chicken Breast Fillet                           165.00 cal",
      "Natrol, Melatonin, Time Release, 3 mg             0.00 cal",
      "Broccoli                                         57.57 cal",
      "Liquid Egg white                                117.50 cal",
      "white rice (uncooked)                           337.50 cal",
      "Sport research Omegas 3                          60.00 cal",
      "Redon1 Mre                                      530.00 cal",
      "Canola oil                                       53.14 cal",
      "Excellence Mint Intense Chocolate               107.00 cal",
      "Mark and Spencer\x27s protein bagel                237.06 cal",
      "Life Extension, Two-Per-Day Multivitamin          0.00 cal",
      "California Gold Nutrition, CoQ10 with Bioperine     0.00 cal",
      "NOW Foods, NAC                                    0.00 cal",
      "淮山麵                                             351.51 cal",
      "Life Extension, Super K                           0.00 cal",
      "Fried Egg                                        90.00 cal",
      "Alpen no added sugar (v3)                       276.75 cal",
      "Oatly Chocolate Oatmilk (updated)               151.11 cal",
      "Oatly Chocolate Oatmilk (updated)               151.11 cal",
      "Life Extension, Two-Per-Day Multivitamin          0.00 cal" ] := by
  simp only [nutrition_logs, List.map_cons, List.map_nil, entry_line,
    tf_15472, tf_0, tf_16500, tf_5757, tf_11750, tf_33750, tf_6000, tf_53000,
    tf_5314, tf_10700, tf_23706, tf_35151, tf_9000, tf_27675, tf_15111]
  decide

set_option maxRecDepth 2000 in
theorem report_eval :
    render_report nutrition_logs total_calories (round_total total_calories)
      = String.intercalate "\n"
      [ "95% lean minced beef - HKMEATLO                 154.72 cal",
        "NOW Foods, Zinc Picolinat                         0.00 cal",
        "Chicken Breast Fillet                           165.00 cal",
        "Natrol, Melatonin, Time Release, 3 mg             0.00 cal",
        "Broccoli                                         57.57 cal",
        "Liquid Egg white                                117.50 cal",
        "white rice (uncooked)                           337.50 cal",
        "Sport research Omegas 3                          60.00 cal",
        "Redon1 Mre                                      530.00 cal",
        "Canola oil                                       53.14 cal",
        "Excellence Mint Intense Chocolate               107.00 cal",
        "Mark and Spencer\x27s protein bagel                237.06 cal",
        "Life Extension, Two-Per-Day Multivitamin          0.00 cal",
        "California Gold Nutrition, CoQ10 with Bioperine     0.00 cal",
        "NOW Foods, NAC                                    0.00 cal",
        "淮山麵                                             351.51 cal",
        "Life Extension, Super K                           0.00 cal",
        "Fried Egg                                        90.00 cal",
        "Alpen no added sugar (v3)                       276.75 cal",
        "Oatly Chocolate Oatmilk (updated)               151.11 cal",
        "Oatly Chocolate Oatmilk (updated)               151.11 cal",
        "Life Extension, Two-Per-Day Multivitamin          0.00 cal",
        "--------------------------------------------------",
        "總計                                             2839.97 cal",
        "四捨五入後: 2840 cal" ] := by
  unfold total_calories render_report
  rw [entry_lines_eval, roundtot_eq, total_eq]
  simp only [totals_line, rounded_line, tf_283997]
  refine congrArg (String.intercalate "\n") ?_
  decide

set_option maxRecDepth 2000 in
theorem main_eval : main_output = String.intercalate "\n"
      [ "卡路里明細計算:",
        "--------------------------------------------------",
        "95% lean minced beef - HKMEATLO                 154.72 cal",
        "NOW Foods, Zinc Picolinat                         0.00 cal",
        "Chicken Breast Fillet                           165.00 cal",
        "Natrol, Melatonin, Time Release, 3 mg             0.00 cal",
        "Broccoli                                         57.57 cal",
        "Liquid Egg white                                117.50 cal",
        "white rice (uncooked)                           337.50 cal",
        "Sport research Omegas 3                          60.00 cal",
        "Redon1 Mre                                      530.00 cal",
        "Canola oil                                       53.14 cal",
        "Excellence Mint Intense Chocolate               107.00 cal",
        "Mark and Spencer\x27s protein bagel                237.06 cal",
        "Life Extension, Two-Per-Day Multivitamin          0.00 cal",
        "California Gold Nutrition, CoQ10 with Bioperine     0.00 cal",
        "NOW Foods, NAC                                    0.00 cal",
        "淮山麵                                             351.51 cal",
        "Life Extension, Super K                           0.00 cal",
        "Fried Egg                                        90.00 cal",
        "Alpen no added sugar (v3)                       276.75 cal",
        "Oatly Chocolate Oatmilk (updated)               151.11 cal",
        "Oatly Chocolate Oatmilk (updated)               151.11 cal",
        "Life Extension, Two-Per-Day Multivitamin          0.00 cal",
        "--------------------------------------------------",
        "總計                                             2839.97 cal",
        "四捨五入後: 2840 cal",
        "",
        "後端 API 回傳: 2839.97 cal",
        "差異: 0.00 cal",
        "UI 顯示 (四捨五入): 2840 cal" ] ++ "\n" := by
  unfold main_output run_program program_lines
  rw [entry_lines_eval, roundtot_eq, compare_eval, total_eq]
  simp only [totals_line, rounded_line, tf_283997]
  refine congrArg (fun s => s ++ "\n") (congrArg (String.intercalate "\n") ?_)
  decide

/-! ## Claims -/

/-- Claim C1, counterexample: the computed total over the fixed list is
exactly 2839.97, which lies 0.11 away from the claimed approximate value
2839.86 (and it renders as "2839.97"), so the sum is not approximately
2839.86. -/
theorem C1_counterexample :
    compute_total nutrition_logs = 2839.97 ∧
    abs (compute_total nutrition_logs - 2839.86) = 0.11 ∧
    toFixed2 (compute_total nutrition_logs) = "2839.97" := by
  refine ⟨total_eq, ?_, ?_⟩
  · rw [total_eq]
    norm_num
  · rw [total_eq]
    exact tf_283997

/-- Claim C1, amended: for the fixed, hardcoded list of 22 entries, the
computed total (the accumulation loop over nutrition_logs) equals the
exact sum of the listed calorie values, and that sum is exactly 2839.97
(approximately 2839.97, not 2839.86). -/
theorem C1_total_exact :
    compute_total nutrition_logs = (nutrition_logs.map Prod.snd).sum ∧
    compute_total nutrition_logs = 2839.97 ∧
    nutrition_logs.length = 22 :=
  ⟨compute_total_eq_sum nutrition_logs, total_eq, by decide⟩

/-- Claim C2, counterexample: the absolute difference between the computed
total and the reference value 2839.97 is exactly 0, not approximately
0.11, and the comparison step prints it as "0.00". -/
theorem C2_counterexample :
    abs (total_calories - backend_value) = 0 ∧
    abs (total_calories - backend_value) ≠ 0.11 ∧
    compare_output total_calories backend_value
      = [ "後端 API 回傳: 2839.97 cal", "差異: 0.00 cal" ] := by
  unfold total_calories
  refine ⟨diff_zero, ?_, compare_eval⟩
  rw [diff_zero]
  norm_num

/-- Claim C2, amended: the computed total equals the externally supplied
reference value 2839.97 exactly in the embedded decimal arithmetic, so the
absolute difference the comparison step reports is 0, printed as 0.00 (not
approximately 0.11). -/
theorem C2_difference_zero :
    total_calories = backend_value ∧
    toFixed2 (abs (total_calories - backend_value)) = "0.00" := by
  unfold total_calories backend_value
  refine ⟨total_eq, ?_⟩
  have h : abs (compute_total nutrition_logs - 2839.97) = 0 := by
    rw [total_eq]
    norm_num
  rw [h]
  exact tf_zero

/-- Claim C3, counterexample: labels are not truncated to 45 columns; the
program's entry "California Gold Nutrition, CoQ10 with Bioperine" (at
index 13) is 47 characters long, its padded label field keeps 47 columns
(not 45), and its rendered line has 60 characters instead of the 58
(45+1+8+4) the claimed layout implies; moreover the totals line is
labeled 總計, not "Total". -/
theorem C3_counterexample :
    (ljust "California Gold Nutrition, CoQ10 with Bioperine" 45).length = 47 ∧
    (entry_line ("California Gold Nutrition, CoQ10 with Bioperine", 0.00)).length = 60 ∧
    (nutrition_logs.map Prod.fst).get? 13
      = some "California Gold Nutrition, CoQ10 with Bioperine" ∧
    (totals_line total_calories).data.take 2 = "總計".data ∧
    ("總計" : String) ≠ "Total" := by
  refine ⟨by decide, ?_, by decide, ?_, by decide⟩
  · simp only [entry_line, tf_0]
    decide
  · unfold total_calories
    rw [total_eq]
    simp only [totals_line, tf_283997]
    decide

/-- Claim C3, amended: render_report produces one line per entry with the
label left-justified and padded on the right to a minimum of 45 columns
(labels of at most 45 characters occupy exactly 45 columns; longer labels
are kept whole, not truncated), one space, the calorie value right-aligned
in an 8-column field with 2 decimal places followed by " cal"; then a
50-dash separator rule; then a totals line in the same column layout
labeled 總計 (not "Total"); then a line showing the rounded total.  For
the program's fixed list the rendered report is the exact text stated in
the last conjunct. -/
theorem C3_render_layout :
    (∀ (label : String) (v : ℚ), label.length ≤ 45 →
      (ljust label 45).length = 45 ∧
      entry_line (label, v) = ljust label 45 ++ " " ++ rjust (toFixed2 v) 8 ++ " cal") ∧
    sep50.length = 50 ∧
    render_report nutrition_logs total_calories (round_total total_calories)
      = String.intercalate "\n"
      [ "95% lean minced beef - HKMEATLO                 154.72 cal",
        "NOW Foods, Zinc Picolinat                         0.00 cal",
        "Chicken Breast Fillet                           165.00 cal",
        "Natrol, Melatonin, Time Release, 3 mg             0.00 cal",
        "Broccoli                                         57.57 cal",
        "Liquid Egg white                                117.50 cal",
        "white rice (uncooked)                           337.50 cal",
        "Sport research Omegas 3                          60.00 cal",
        "Redon1 Mre                                      530.00 cal",
        "Canola oil                                       53.14 cal",
        "Excellence Mint Intense Chocolate               107.00 cal",
        "Mark and Spencer\x27s protein bagel                237.06 cal",
        "Life Extension, Two-Per-Day Multivitamin          0.00 cal",
        "California Gold Nutrition, CoQ10 with Bioperine     0.00 cal",
        "NOW Foods, NAC                                    0.00 cal",
        "淮山麵                                             351.51 cal",
        "Life Extension, Super K                           0.00 cal",
        "Fried Egg                                        90.00 cal",
        "Alpen no added sugar (v3)                       276.75 cal",
        "Oatly Chocolate Oatmilk (updated)               151.11 cal",
        "Oatly Chocolate Oatmilk (updated)               151.11 cal",
        "Life Extension, Two-Per-Day Multivitamin          0.00 cal",
        "--------------------------------------------------",
        "總計                                             2839.97 cal",
        "四捨五入後: 2840 cal" ] := by
  refine ⟨fun label v h => ⟨ljust_length label 45 h, rfl⟩, by decide, report_eval⟩

theorem C3_render_layout_witness :
    ("Broccoli" : String).length ≤ 45 ∧
    ((ljust "Broccoli" 45).length = 45 ∧
      entry_line ("Broccoli", 57.57)
        = ljust "Broccoli" 45 ++ " " ++ rjust (toFixed2 57.57) 8 ++ " cal") :=
  ⟨by decide, C3_render_layout.1 "Broccoli" 57.57 (by decide)⟩

/-- Claim C4: Python's round applied to the exact computed sum of the 22
fixed entries equals 2840, as does the ui_display value derived from it. -/
theorem C4_rounded_total :
    round_total (compute_total nutrition_logs) = 2840 ∧ ui_display = 2840 := by
  refine ⟨roundtot_eq, ?_⟩
  unfold ui_display total_calories
  exact roundtot_eq

/-- Claim C5: the comparison step prints the reference value rendered to 2
decimal places together with the absolute difference abs(total - reference)
rendered to 2 decimal places; for the program's reference 2839.97 the
printed difference is the 2-decimal rendering of abs(total - 2839.97),
namely "0.00". -/
theorem C5_compare_abs :
    (∀ t r : ℚ, compare_output t r
      = [ "後端 API 回傳: " ++ toFixed2 r ++ " cal",
          "差異: " ++ toFixed2 (abs (t - r)) ++ " cal" ]) ∧
    toFixed2 backend_value = "2839.97" ∧
    toFixed2 (abs (total_calories - 2839.97)) = "0.00" ∧
    compare_output total_calories backend_value
      = [ "後端 API 回傳: 2839.97 cal", "差異: 0.00 cal" ] := by
  refine ⟨fun t r => rfl, ?_, ?_, ?_⟩
  · unfold backend_value
    exact tf_283997
  · unfold total_calories
    have h : abs (compute_total nutrition_logs - 2839.97) = 0 := by
      rw [total_eq]
      norm_num
    rw [h]
    exact tf_zero
  · unfold total_calories
    exact compare_eval

/-- Claim C6: for every entry list the computed total is the insertion
order sum of all calories fields; removing any single positional
occurrence lowers the total by exactly that entry's calories, so each
element contributes exactly once; concretely, each of the two identical
Oatly pairs (positions 19 and 20) contributes its own 151.11. -/
theorem C6_sum_invariant :
    (∀ l : List (String × ℚ), compute_total l = (l.map Prod.snd).sum) ∧
    (∀ (l₁ l₂ : List (String × ℚ)) (e : String × ℚ),
      compute_total (l₁ ++ e :: l₂) = compute_total (l₁ ++ l₂) + e.2) ∧
    compute_total nutrition_logs
      = compute_total (nutrition_logs.take 19 ++ nutrition_logs.drop 20) + 151.11 ∧
    compute_total (nutrition_logs.take 19 ++ nutrition_logs.drop 20)
      = compute_total (nutrition_logs.take 19 ++ nutrition_logs.drop 21) + 151.11 := by
  have h20 : nutrition_logs.take 19 ++ nutrition_logs.drop 20 = [ ("95% lean minced beef - HKMEATLO", 154.72),
        ("NOW Foods, Zinc Picolinat", 0.00),
        ("Chicken Breast Fillet", 165.00),
        ("Natrol, Melatonin, Time Release, 3 mg", 0.00),
        ("Broccoli", 57.57),
        ("Liquid Egg white", 117.50),
        ("white rice (uncooked)", 337.50),
        ("Sport research Omegas 3", 60.00),
        ("Redon1 Mre", 530.00),
        ("Canola oil", 53.14),
        ("Excellence Mint Intense Chocolate", 107.00),
        ("Mark and Spencer\x27s protein bagel", 237.06),
        ("Life Extension, Two-Per-Day Multivitamin", 0.00),
        ("California Gold Nutrition, CoQ10 with Bioperine", 0.00),
        ("NOW Foods, NAC", 0.00),
        ("淮山麵", 351.51),
        ("Life Extension, Super K", 0.00),
        ("Fried Egg", 90.00),
        ("Alpen no added sugar (v3)", 276.75),
        ("Oatly Chocolate Oatmilk (updated)", 151.11),
        ("Life Extension, Two-Per-Day Multivitamin", 0.00) ] := rfl
  have h21 : nutrition_logs.take 19 ++ nutrition_logs.drop 21 = [ ("95% lean minced beef - HKMEATLO", 154.72),
        ("NOW Foods, Zinc Picolinat", 0.00),
        ("Chicken Breast Fillet", 165.00),
        ("Natrol, Melatonin, Time Release, 3 mg", 0.00),
        ("Broccoli", 57.57),
        ("Liquid Egg white", 117.50),
        ("white rice (uncooked)", 337.50),
        ("Sport research Omegas 3", 60.00),
        ("Redon1 Mre", 530.00),
        ("Canola oil", 53.14),
        ("Excellence Mint Intense Chocolate", 107.00),
        ("Mark and Spencer\x27s protein bagel", 237.06),
        ("Life Extension, Two-Per-Day Multivitamin", 0.00),
        ("California Gold Nutrition, CoQ10 with Bioperine", 0.00),
        ("NOW Foods, NAC", 0.00),
        ("淮山麵", 351.51),
        ("Life Extension, Super K", 0.00),
        ("Fried Egg", 90.00),
        ("Alpen no added sugar (v3)", 276.75),
        ("Life Extension, Two-Per-Day Multivitamin", 0.00) ] := rfl
  refine ⟨compute_total_eq_sum, ?_, ?_, ?_⟩
  · intro l₁ l₂ e
    rw [compute_total_eq_sum, compute_total_eq_sum, List.map_append, List.map_append,
      List.sum_append, List.sum_append, List.map_cons, List.sum_cons]
    ring
  · rw [h20]
    norm_num [compute_total, nutrition_logs]
  · rw [h20, h21]
    norm_num [compute_total]

/-- Claim C7: for an empty entry list the summation yields 0 and the
rounded total is 0. -/
theorem C7_empty_list :
    compute_total [] = 0 ∧ round_total (compute_total []) = 0 := by
  refine ⟨rfl, ?_⟩
  have h : compute_total [] = ((0 : ℤ) : ℚ) := by norm_num [compute_total]
  rw [h]
  exact round_total_intCast 0

/-- Claim C8: round_total returns the nearest integer, and on exact .5
ties it rounds to the even neighbour (banker's rounding, Python's round),
not half away from zero: 2.5 rounds to 2, 3.5 to 4, -2.5 to -2. -/
theorem C8_round_half_even :
    (∀ (q : ℚ) (n : ℤ), abs (q - n) < 1/2 → round_total q = n) ∧
    (∀ n : ℤ, round_total ((n : ℚ) + 1/2) = if n % 2 = 0 then n else n + 1) ∧
    round_total 2.5 = 2 ∧ round_total 3.5 = 4 ∧ round_total (-2.5) = -2 := by
  refine ⟨round_near, round_half, ?_, ?_, ?_⟩
  · rw [show (2.5 : ℚ) = (2 : ℤ) + 1/2 by norm_num, round_half]
    decide
  · rw [show (3.5 : ℚ) = (3 : ℤ) + 1/2 by norm_num, round_half]
    decide
  · rw [show (-2.5 : ℚ) = (-3 : ℤ) + 1/2 by norm_num, round_half]
    decide

theorem C8_round_half_even_witness :
    abs ((10.2 : ℚ) - ((10 : ℤ) : ℚ)) < 1/2 ∧ round_total 10.2 = 10 :=
  ⟨by rw [abs_lt]; push_cast; norm_num,
    C8_round_half_even.1 10.2 10 (by rw [abs_lt]; push_cast; norm_num)⟩

/-- Claim C9: the program distinguishes no error conditions: any value,
negative or zero included, passes through the addition as-is with no
validation; every input list (the empty one included) produces output
text; the embedded program is a total function with no failure path. -/
theorem C9_no_error_paths :
    (∀ (s : String) (q : ℚ) (l : List (String × ℚ)),
      compute_total ((s, q) :: l) = q + compute_total l) ∧
    (∀ (entries : List (String × ℚ)) (reference : ℚ),
      0 < (run_program entries reference).length) ∧
    compute_total [("X", -5.5)] = -5.5 := by
  refine ⟨?_, ?_, by norm_num [compute_total]⟩
  · intro s q l
    rw [compute_total_eq_sum, compute_total_eq_sum, List.map_cons, List.sum_cons]
  · intro entries reference
    unfold run_program
    rw [String.length_append, show ("\n" : String).length = 1 from rfl]
    omega

/-- Claim C10: the program consumes no input, so any two executions
produce identical output: the embedded run function is a constant
function, its value being exactly the text in the last conjunct. -/
theorem C10_deterministic :
    (∀ u v : Unit, program_run u = program_run v) ∧
    (∀ u : Unit, program_run u = main_output) ∧
    main_output = String.intercalate "\n"
      [ "卡路里明細計算:",
        "--------------------------------------------------",
        "95% lean minced beef - HKMEATLO                 154.72 cal",
        "NOW Foods, Zinc Picolinat                         0.00 cal",
        "Chicken Breast Fillet                           165.00 cal",
        "Natrol, Melatonin, Time Release, 3 mg             0.00 cal",
        "Broccoli                                         57.57 cal",
        "Liquid Egg white                                117.50 cal",
        "white rice (uncooked)                           337.50 cal",
        "Sport research Omegas 3                          60.00 cal",
        "Redon1 Mre                                      530.00 cal",
        "Canola oil                                       53.14 cal",
        "Excellence Mint Intense Chocolate               107.00 cal",
        "Mark and Spencer\x27s protein bagel                237.06 cal",
        "Life Extension, Two-Per-Day Multivitamin          0.00 cal",
        "California Gold Nutrition, CoQ10 with Bioperine     0.00 cal",
        "NOW Foods, NAC                                    0.00 cal",
        "淮山麵                                             351.51 cal",
        "Life Extension, Super K                           0.00 cal",
        "Fried Egg                                        90.00 cal",
        "Alpen no added sugar (v3)                       276.75 cal",
        "Oatly Chocolate Oatmilk (updated)               151.11 cal",
        "Oatly Chocolate Oatmilk (updated)               151.11 cal",
        "Life Extension, Two-Per-Day Multivitamin          0.00 cal",
        "--------------------------------------------------",
        "總計                                             2839.97 cal",
        "四捨五入後: 2840 cal",
        "",
        "後端 API 回傳: 2839.97 cal",
        "差異: 0.00 cal",
        "UI 顯示 (四捨五入): 2840 cal" ] ++ "\n" :=
  ⟨fun _ _ => rfl, fun _ => rfl, main_eval⟩
